import Mathlib

/-!
Shallow embedding of the TcpSocketProgram repository (tcpServer.c, tcpSock.c,
tcpSock.h) for checking its natural-language specification.

Modelling conventions:
- C byte buffers are lists of natural numbers (byte values); the fixed arrays
  of size BUFFER_SIZE are lists whose well-formed length is BUFFER_SIZE.
- memcpy/memset/strlen are modelled explicitly on lists.
- Each worker thread is modelled as a step function on the slot state driven
  by an event describing the outcome of the blocking call of that iteration
  (select result, read result, condition-wait result); logging is recorded as
  a list of log events, process exit and descriptor closing as explicit fields.
- The pthread mutex/condition objects carry no data; for the install path we
  track only whether they have been initialized, and for the sender's locking
  discipline we track the set of held mutexes along the iteration's
  synchronization-operation trace.
-/

/-- Value of the BUFFER_SIZE macro in tcpSock.h. -/
def BUFFER_SIZE : Nat := 1024

/-- Value of the MAX_CLIENTS macro in tcpSock.h. -/
def MAX_CLIENTS : Nat := 10

/-- Value of INADDR_ANY. -/
def INADDR_ANY : Nat := 0

/-- Result of memcpy(dst, src, n) on whole buffers: the first n cells come
from src, the rest keep dst. -/
def memcpy (dst src : List Nat) (n : Nat) : List Nat :=
  src.take n ++ dst.drop n

/-- Result of strlen on a buffer: number of bytes before the first NUL. -/
def cstrlen (l : List Nat) : Nat :=
  (l.takeWhile (fun b => b != 0)).length

/-- Bounds-checked store into a buffer, modelling a C array store; none means
the store is out of bounds (undefined behavior in the C source). -/
def listStore (l : List Nat) (i v : Nat) : Option (List Nat) :=
  if i < l.length then some (l.set i v) else none

/-- SHARED_DATA from tcpServer.c: the per-connection Mailbox. chData is the
fixed buffer, hasData the data-present flag; mutexInit and condInit record
whether pthread_mutex_init and pthread_cond_init have been performed on the
embedded synchronization objects (the objects themselves carry no data). -/
structure SHARED_DATA where
  chData : List Nat
  hasData : Bool
  mutexInit : Bool
  condInit : Bool
deriving DecidableEq

/-- CLIENT_INFO from tcpServer.c, restricted to the data fields the claims
are about (the two pthread_t handles and the exitFlagMutex object carry no
modelled data). -/
structure CLIENT_INFO where
  iClientSock : Nat
  bExitFlag : Bool
  stSharedData : SHARED_DATA
deriving DecidableEq

/-- The all-zero SHARED_DATA produced by the zero initialization of
stClientGroup in main. -/
def zeroSharedData : SHARED_DATA :=
  { chData := List.replicate BUFFER_SIZE 0
  , hasData := false
  , mutexInit := false
  , condInit := false }

/-- The achBuffer of receiveThread after memset(achBuffer, 0, BUFFER_SIZE),
a read that returned the bytes data (iReadSize = data.length), and the NUL
store achBuffer[iReadSize] = 0 (tcpServer.c lines 88-101). The List.set is
the in-bounds effect of that store; the out-of-bounds boundary case is
modelled separately by nulTerminateStore. -/
def recvBuffer (data : List Nat) : List Nat :=
  (memcpy (List.replicate BUFFER_SIZE 0) data data.length).set data.length 0

/-- Receiver deposit into the Mailbox (tcpServer.c lines 102-107): under the
mutex, set hasData, memset chData to zero, memcpy strlen(achBuffer) bytes of
achBuffer into chData, signal the condition variable. -/
def depositStep (sd : SHARED_DATA) (achBuffer : List Nat) : SHARED_DATA :=
  { sd with
      hasData := true
      chData := memcpy (List.replicate BUFFER_SIZE 0) achBuffer (cstrlen achBuffer) }

/-- Bytes the sender puts on the wire from a given chData (tcpServer.c lines
166-174): memset achBuffer to zero, memcpy strlen(chData) bytes from chData,
then write strlen(achBuffer) bytes of achBuffer. -/
def cStringOut (chData : List Nat) : List Nat :=
  let achBuffer := memcpy (List.replicate BUFFER_SIZE 0) chData (cstrlen chData)
  achBuffer.take (cstrlen achBuffer)

/-- Sender drain of the Mailbox (tcpServer.c lines 166-171): clears hasData
and copies the payload out; second component is the byte sequence the
subsequent write delivers. -/
def drainStep (sd : SHARED_DATA) : SHARED_DATA × List Nat :=
  ({ sd with hasData := false }, cStringOut sd.chData)

/-- End-to-end relay of one positive read result: the bytes the sender
writes to the peer after the receiver deposits the read bytes data. -/
def relayOnce (sd : SHARED_DATA) (data : List Nat) : List Nat :=
  (drainStep (depositStep sd (recvBuffer data))).2

/-- The achBuffer of receiveThread after memset and a read returning the
bytes data, before the NUL store. -/
def bufferAfterRead (data : List Nat) : List Nat :=
  memcpy (List.replicate BUFFER_SIZE 0) data data.length

/-- The NUL-terminator store achBuffer[iReadSize] = 0 performed at
tcpServer.c line 101 and tcpClient.c line 141, with its bounds check made
explicit: none means the store lands outside the BUFFER_SIZE-byte buffer. -/
def nulTerminateStore (data : List Nat) : Option (List Nat) :=
  listStore (bufferAfterRead data) data.length 0

/-- Installation of an accepted descriptor into a free slot (tcpServer.c
lines 236-253): store the descriptor, pthread_mutex_init the Mailbox mutex,
set bExitFlag to false, then spawn the two workers. Nothing else in the slot
is touched. -/
def installClient (slot : CLIENT_INFO) (fd : Nat) : CLIENT_INFO :=
  { slot with
      iClientSock := fd
      bExitFlag := false
      stSharedData := { slot.stSharedData with mutexInit := true } }

/-- Events a log line is emitted for in the two worker loops. -/
inductive LogEvent
  | selectFailLog
  | readFailLog
  | disconnectLog
  | recvDataLog
deriving DecidableEq

/-- Whether a worker-loop step leaves the loop running or exits it. -/
inductive StepOutcome
  | loopContinue
  | loopExit
deriving DecidableEq

/-- Outcome of the blocking select/read of one receiveThread iteration. -/
inductive RecvEvent
  | selectError
  | selectTimeout
  | readClosed
  | readError
  | readData (data : List Nat)
deriving DecidableEq

/-- Result of one receiveThread loop iteration. -/
structure RecvStepResult where
  info : CLIENT_INFO
  outcome : StepOutcome
  logs : List LogEvent
deriving DecidableEq

/-- One iteration of the receiveThread loop (tcpServer.c lines 76-122),
including the post-loop logging and exit-flag store that run when the loop
is left. On select failure: perror, break, log disconnect, set bExitFlag,
exit. On zero-length read: break, log disconnect, set bExitFlag, exit.
On negative read: perror, close the socket, clear iClientSock, and continue
the loop (there is no break and the exit flag is not written). On a positive
read: deposit into the Mailbox and continue. -/
def receiveStep (st : CLIENT_INFO) (ev : RecvEvent) : RecvStepResult :=
  match ev with
  | RecvEvent.selectError =>
      ⟨{ st with bExitFlag := true }, StepOutcome.loopExit,
        [LogEvent.selectFailLog, LogEvent.disconnectLog]⟩
  | RecvEvent.selectTimeout =>
      ⟨st, StepOutcome.loopContinue, []⟩
  | RecvEvent.readClosed =>
      ⟨{ st with bExitFlag := true }, StepOutcome.loopExit, [LogEvent.disconnectLog]⟩
  | RecvEvent.readError =>
      ⟨{ st with iClientSock := 0 }, StepOutcome.loopContinue, [LogEvent.readFailLog]⟩
  | RecvEvent.readData data =>
      ⟨{ st with stSharedData := depositStep st.stSharedData (recvBuffer data) },
        StepOutcome.loopContinue, [LogEvent.recvDataLog]⟩

/-- Outcome of the condition wait of one sendThread iteration. -/
inductive SendEvent
  | condTimeout
  | condSignaled
deriving DecidableEq

/-- Result of one sendThread loop iteration. -/
structure SendStepResult where
  info : CLIENT_INFO
  outcome : StepOutcome
  written : Option (List Nat)
deriving DecidableEq

/-- One iteration of the sendThread loop (tcpServer.c lines 148-187),
including the post-loop exit-flag store. If bExitFlag is set the loop is
left (the flag is stored true again on the way out). Otherwise the timed
condition wait either times out (heartbeat, nothing sent) or is signaled,
in which case the Mailbox is drained and the payload written to the peer. -/
def sendStep (st : CLIENT_INFO) (ev : SendEvent) : SendStepResult :=
  if st.bExitFlag then
    ⟨{ st with bExitFlag := true }, StepOutcome.loopExit, none⟩
  else
    match ev with
    | SendEvent.condTimeout => ⟨st, StepOutcome.loopContinue, none⟩
    | SendEvent.condSignaled =>
        ⟨{ st with stSharedData := (drainStep st.stSharedData).1 },
          StepOutcome.loopContinue, some (drainStep st.stSharedData).2⟩

/-- An event of either worker of one connection's pair. -/
inductive SessionEvent
  | recv (ev : RecvEvent)
  | send (ev : SendEvent)
deriving DecidableEq

/-- Effect of one worker iteration (of either worker) on the slot state. -/
def sessionStep (st : CLIENT_INFO) (e : SessionEvent) : CLIENT_INFO :=
  match e with
  | SessionEvent.recv ev => (receiveStep st ev).info
  | SessionEvent.send ev => (sendStep st ev).info

/-- Result of the accept call in the Acceptor's loop. -/
inductive AcceptResult
  | acceptError
  | accepted (fd : Nat)
deriving DecidableEq

/-- Outcome of one readiness-of-the-listening-socket branch of main's loop:
the slot table afterwards, every descriptor that was explicitly closed,
whether the process exits, and whether a slot was installed. -/
structure AcceptorStepResult where
  stClientGroup : List CLIENT_INFO
  closedDescriptors : List Nat
  processExit : Bool
  installed : Bool
deriving DecidableEq

/-- The slot-table scan of main (tcpServer.c lines 236-253): install the
descriptor into the first slot whose iClientSock is 0, none if no slot is
free. -/
def installFirstFree : List CLIENT_INFO → Nat → Option (List CLIENT_INFO)
  | [], _ => none
  | c :: rest, fd =>
    if c.iClientSock == 0 then some (installClient c fd :: rest)
    else (installFirstFree rest fd).map (fun t => c :: t)

/-- The listening-socket branch of main's loop (tcpServer.c lines 225-254).
If accept fails: perror then exit(EXIT_FAILURE). If accept yields fd: scan
for a free slot and install; when the scan finds none, the loop simply falls
through — fd is neither closed nor stored anywhere. -/
def acceptorAcceptStep (stClientGroup : List CLIENT_INFO) (r : AcceptResult) :
    AcceptorStepResult :=
  match r with
  | AcceptResult.acceptError => ⟨stClientGroup, [], true, false⟩
  | AcceptResult.accepted fd =>
    match installFirstFree stClientGroup fd with
    | some t => ⟨t, [], false, true⟩
    | none => ⟨stClientGroup, [], false, false⟩

/-- The two pthread mutexes of a CLIENT_INFO. -/
inductive MutexId
  | sharedDataMutex
  | exitFlagMutex
deriving DecidableEq

/-- Synchronization operations appearing in the worker loops; condTimedwait
names the mutex passed as second argument to pthread_cond_timedwait. -/
inductive SyncOp
  | lock (m : MutexId)
  | unlock (m : MutexId)
  | condTimedwait (m : MutexId)
deriving DecidableEq

/-- Which mutexes the thread currently holds. -/
structure MutexHeldState where
  sharedDataHeld : Bool
  exitFlagHeld : Bool
deriving DecidableEq

/-- Effect of a synchronization operation on the held set. A condTimedwait
is queried at entry, so its own release/reacquire does not change the
held-at-entry bookkeeping. -/
def applySyncOp (h : MutexHeldState) : SyncOp → MutexHeldState
  | SyncOp.lock MutexId.sharedDataMutex => { h with sharedDataHeld := true }
  | SyncOp.lock MutexId.exitFlagMutex => { h with exitFlagHeld := true }
  | SyncOp.unlock MutexId.sharedDataMutex => { h with sharedDataHeld := false }
  | SyncOp.unlock MutexId.exitFlagMutex => { h with exitFlagHeld := false }
  | SyncOp.condTimedwait _ => h

/-- Whether a given mutex is held. -/
def heldAtMutex (h : MutexHeldState) : MutexId → Bool
  | MutexId.sharedDataMutex => h.sharedDataHeld
  | MutexId.exitFlagMutex => h.exitFlagHeld

/-- Whether the mutex named by the first condTimedwait of the trace is held
when that wait is entered; none if the trace contains no wait. -/
def heldAtFirstWait : MutexHeldState → List SyncOp → Option Bool
  | _, [] => none
  | h, SyncOp.condTimedwait m :: _ => some (heldAtMutex h m)
  | h, op :: rest => heldAtFirstWait (applySyncOp h op) rest

/-- Synchronization-operation trace of one sendThread iteration (tcpServer.c
lines 148-177): lock/unlock of exitFlagMutex around the flag read; if the
flag is clear, pthread_cond_timedwait on stSharedData.cond with
stSharedData.mutex as the mutex argument — with no preceding lock of that
mutex — and, when the wait is signaled, an unlock of stSharedData.mutex at
the end of the drain. -/
def sendThreadIterationOps (bExitFlag timedOut : Bool) : List SyncOp :=
  [SyncOp.lock MutexId.exitFlagMutex, SyncOp.unlock MutexId.exitFlagMutex] ++
  (if bExitFlag then []
   else SyncOp.condTimedwait MutexId.sharedDataMutex ::
     (if timedOut then [] else [SyncOp.unlock MutexId.sharedDataMutex]))

/-- Success/failure of each OS call made by createServerSocket, in program
order (socketOk is the code's own check that the socket call did not return
0). -/
structure ServerSocketEnv where
  socketOk : Bool
  reuseOk : Bool
  keepaliveOk : Bool
  keepidleOk : Bool
  keepintvlOk : Bool
  keepcntOk : Bool
  bindOk : Bool
  listenOk : Bool
deriving DecidableEq

/-- Configuration of the listening socket as set up by createServerSocket. -/
structure ServerSocketConfig where
  reuseAddrPort : Bool
  keepaliveEnabled : Bool
  keepIdle : Nat
  keepInterval : Nat
  keepCount : Nat
  bindAddr : Nat
  bindPort : Nat
  backlog : Nat
deriving DecidableEq

/-- Whether every setup call of createServerSocket succeeded. -/
def envAllOk (env : ServerSocketEnv) : Bool :=
  env.socketOk && env.reuseOk && env.keepaliveOk && env.keepidleOk &&
  env.keepintvlOk && env.keepcntOk && env.bindOk && env.listenOk

/-- createServerSocket from tcpSock.c lines 29-106: socket, SO_REUSEADDR
together with SO_REUSEPORT, SO_KEEPALIVE with TCP_KEEPIDLE 10, TCP_KEEPINTVL
5, TCP_KEEPCNT 3, bind to INADDR_ANY on iPort, listen with backlog
iMaxClients. Every failing step runs perror and exit(EXIT_FAILURE),
modelled as none. -/
def createServerSocket (iPort iMaxClients : Nat) (env : ServerSocketEnv) :
    Option ServerSocketConfig :=
  if !env.socketOk then none
  else if !env.reuseOk then none
  else if !env.keepaliveOk then none
  else if !env.keepidleOk then none
  else if !env.keepintvlOk then none
  else if !env.keepcntOk then none
  else if !env.bindOk then none
  else if !env.listenOk then none
  else some
    { reuseAddrPort := true
    , keepaliveEnabled := true
    , keepIdle := 10
    , keepInterval := 5
    , keepCount := 3
    , bindAddr := INADDR_ANY
    , bindPort := iPort
    , backlog := iMaxClients }

/-- An occupied slot holding peer descriptor 5 with a fresh Mailbox. -/
def activeSlot : CLIENT_INFO :=
  { iClientSock := 5, bExitFlag := false, stSharedData := zeroSharedData }

/-- A slot table in which every one of the MAX_CLIENTS slots is occupied. -/
def fullClientGroup : List CLIENT_INFO :=
  List.replicate MAX_CLIENTS activeSlot

/-- A slot whose previous session ended (descriptor cleared, exit flag set)
leaving a residual payload and hasData in its Mailbox. -/
def staleFreedSlot : CLIENT_INFO :=
  { iClientSock := 0
  , bExitFlag := true
  , stSharedData :=
    { chData := 104 :: List.replicate (BUFFER_SIZE - 1) 0
    , hasData := true
    , mutexInit := true
    , condInit := false } }

/-- An active slot whose exit flag has been raised. -/
def flaggedSlot : CLIENT_INFO :=
  { iClientSock := 5, bExitFlag := true, stSharedData := zeroSharedData }

/-- Bytes of a NUL-free prefix survive takeWhile intact; any all-zero
padding after it is dropped. -/
theorem takeWhile_append_replicate_zero (p : List Nat) (k : Nat)
    (hp : ∀ b ∈ p, b ≠ 0) :
    (p ++ List.replicate k 0).takeWhile (fun b => b != 0) = p := by
  induction p with
  | nil =>
    cases k with
    | zero => rfl
    | succ n => simp [List.replicate_succ, List.takeWhile_cons]
  | cons a p ih =>
    have ha : (a != 0) = true := by
      simpa using hp a (List.mem_cons_self a p)
    simp only [List.cons_append, List.takeWhile_cons, ha, if_true]
    simp [ih (fun b hb => hp b (List.mem_cons_of_mem a hb))]

/-- strlen of a NUL-free byte sequence followed by zero padding. -/
theorem cstrlen_append_replicate_zero (p : List Nat) (k : Nat)
    (hp : ∀ b ∈ p, b ≠ 0) :
    cstrlen (p ++ List.replicate k 0) = p.length := by
  rw [cstrlen, takeWhile_append_replicate_zero p k hp]

/-- Dropping from an all-zero buffer leaves an all-zero buffer. -/
theorem drop_replicate_zero : ∀ (n k : Nat),
    (List.replicate k (0 : Nat)).drop n = List.replicate (k - n) 0
  | 0, _ => by simp
  | _ + 1, 0 => by simp
  | n + 1, k + 1 => by simp [List.replicate_succ, drop_replicate_zero n k]

/-- Taking the length of the left part of an append returns it. -/
theorem take_append_length (p r : List Nat) : (p ++ r).take p.length = p := by
  induction p with
  | nil => rfl
  | cons a p ih => simp [ih]

/-- Storing just past the left part of an append stores at the head of the
right part. -/
theorem set_append_length (l r : List Nat) (v : Nat) :
    (l ++ r).set l.length v = l ++ r.set 0 v := by
  induction l with
  | nil => rfl
  | cons a l ih => simp [List.set, ih]

/-- For an in-range read result, the receiver's buffer is the read bytes
followed by zero padding (the NUL store hits a cell that is already zero). -/
theorem recvBuffer_eq (data : List Nat) (h : data.length < BUFFER_SIZE) :
    recvBuffer data = data ++ List.replicate (BUFFER_SIZE - data.length) 0 := by
  have hk : BUFFER_SIZE - data.length = (BUFFER_SIZE - data.length - 1) + 1 := by
    omega
  rw [recvBuffer, memcpy, List.take_length, drop_replicate_zero,
    set_append_length, hk, List.replicate_succ, List.set_cons_zero]

/-- The Mailbox content after a deposit of an in-range, NUL-free payload:
the payload followed by zero padding. -/
theorem depositStep_chData (sd : SHARED_DATA) (p : List Nat)
    (hp : ∀ b ∈ p, b ≠ 0) (hl : p.length < BUFFER_SIZE) :
    (depositStep sd (recvBuffer p)).chData =
      p ++ List.replicate (BUFFER_SIZE - p.length) 0 := by
  rw [depositStep, recvBuffer_eq p hl]
  rw [memcpy, cstrlen_append_replicate_zero p _ hp, take_append_length,
    drop_replicate_zero]

/-- The sender's outgoing bytes for a NUL-free payload with zero padding are
exactly the payload. -/
theorem cStringOut_padded (p : List Nat) (k : Nat) (hp : ∀ b ∈ p, b ≠ 0) :
    cStringOut (p ++ List.replicate k 0) = p := by
  rw [cStringOut]
  simp only [memcpy, cstrlen_append_replicate_zero p k hp, take_append_length,
    drop_replicate_zero]
  rw [cstrlen_append_replicate_zero p _ hp, take_append_length]

/-- Depositing an in-range NUL-free payload and draining returns exactly
that payload to the wire. -/
theorem drained_deposit (sd : SHARED_DATA) (p : List Nat)
    (hp : ∀ b ∈ p, b ≠ 0) (hl : p.length < BUFFER_SIZE) :
    (drainStep (depositStep sd (recvBuffer p))).2 = p := by
  show cStringOut (depositStep sd (recvBuffer p)).chData = p
  rw [depositStep_chData sd p hp hl, cStringOut_padded p _ hp]

/-- A deposit fully determines the Mailbox data fields: a second deposit
erases every trace of the first. -/
theorem depositStep_overwrite (sd : SHARED_DATA) (b1 b2 : List Nat) :
    depositStep (depositStep sd b1) b2 = depositStep sd b2 := rfl

/-- Helper for C10: one worker iteration never lowers a raised exit flag. -/
theorem sessionStep_flag_mono (st : CLIENT_INFO) (e : SessionEvent)
    (h : st.bExitFlag = true) : (sessionStep st e).bExitFlag = true := by
  cases e with
  | recv ev => cases ev <;> simp [sessionStep, receiveStep, h]
  | send ev => cases ev <;> simp [sessionStep, sendStep, h]

/-- C1: in a sendThread iteration that reaches the condition wait (exit flag
clear), the Mailbox mutex stSharedData.mutex is NOT held when
pthread_cond_timedwait is entered, whether the wait then times out or is
signaled; the mandated hold-then-wait discipline of the claim is violated by
the code. -/
theorem sendThread_wait_without_mutex (timedOut : Bool) :
    heldAtFirstWait ⟨false, false⟩ (sendThreadIterationOps false timedOut) =
      some false := by
  cases timedOut <;> rfl

/-- C2: with every slot of the table occupied, the listening-socket branch
that accepted descriptor 42 leaves the table unchanged, closes nothing,
installs nothing, and does not exit: the descriptor is silently dropped and
leaked, contradicting the claim that it must be closed immediately. -/
theorem acceptor_full_table_drops_descriptor :
    acceptorAcceptStep fullClientGroup (AcceptResult.accepted 42) =
      ⟨fullClientGroup, [], false, false⟩ := by
  rfl

/-- C3: last-write-wins. A deposit of P2 after an undrained deposit of P1
makes the Mailbox state identical to one with only the P2 deposit, and the
next drain puts exactly P2 on the wire — never P1 (when the payloads
differ) and never the concatenation of P1 and P2 (when P1 is nonempty). -/
theorem mailbox_last_write_wins (sd : SHARED_DATA) (p1 p2 : List Nat)
    (hp2 : ∀ b ∈ p2, b ≠ 0) (hl2 : p2.length < BUFFER_SIZE) :
    depositStep (depositStep sd (recvBuffer p1)) (recvBuffer p2) =
      depositStep sd (recvBuffer p2) ∧
    (drainStep (depositStep (depositStep sd (recvBuffer p1)) (recvBuffer p2))).2 = p2 ∧
    (p1 ≠ p2 →
      (drainStep (depositStep (depositStep sd (recvBuffer p1)) (recvBuffer p2))).2 ≠ p1) ∧
    (p1 ≠ [] →
      (drainStep (depositStep (depositStep sd (recvBuffer p1)) (recvBuffer p2))).2 ≠
        p1 ++ p2) := by
  have hD : (drainStep (depositStep (depositStep sd (recvBuffer p1))
      (recvBuffer p2))).2 = p2 := by
    rw [depositStep_overwrite, drained_deposit sd p2 hp2 hl2]
  refine ⟨depositStep_overwrite sd (recvBuffer p1) (recvBuffer p2), hD, ?_, ?_⟩
  · intro hne
    rw [hD]
    exact fun h => hne h.symm
  · intro hne
    rw [hD]
    intro h
    have := congrArg List.length h
    simp at this
    exact hne this

/-- C3 counterexample: after the Receiver deposits P1 = [97] and then
P2 = [97, 0] before a drain, the Sender's next drain yields [97] — not
exactly P2, and extensionally equal to P1 — because the strlen-based copies
truncate P2 at its zero byte; the claim without a NUL-free restriction on
P2 is therefore false. -/
theorem mailbox_drain_yields_truncated_p2 :
    (drainStep (depositStep (depositStep zeroSharedData (recvBuffer [97]))
      (recvBuffer [97, 0]))).2 ≠ [97, 0] ∧
    (drainStep (depositStep (depositStep zeroSharedData (recvBuffer [97]))
      (recvBuffer [97, 0]))).2 = [97] := by
  constructor <;> decide

/-- Witness for C3 at concrete payloads. -/
theorem mailbox_last_write_wins_witness :
    (drainStep (depositStep (depositStep zeroSharedData (recvBuffer [104, 105]))
      (recvBuffer [119]))).2 = [119] :=
  (mailbox_last_write_wins zeroSharedData [104, 105] [119] (by decide)
    (by decide)).2.1

/-- C4 counterexample: on a negative read result the receiveThread iteration
neither terminates the loop nor sets the shared exit flag (it logs, closes
the descriptor, clears the slot's descriptor field, and keeps looping),
refuting the claim at this concrete state. -/
theorem receiver_read_error_keeps_running :
    (receiveStep activeSlot RecvEvent.readError).outcome = StepOutcome.loopContinue ∧
    (receiveStep activeSlot RecvEvent.readError).info.bExitFlag = false := by
  exact ⟨rfl, rfl⟩

/-- C4 amended: on a zero-length read the Receiver logs the disconnect, sets
the shared exit flag, and terminates its loop; on a negative read result it
logs the error, closes and clears the slot descriptor, and continues the
loop with the exit flag unchanged. -/
theorem receiver_terminal_read_behavior (st : CLIENT_INFO) :
    receiveStep st RecvEvent.readClosed =
      ⟨{ st with bExitFlag := true }, StepOutcome.loopExit, [LogEvent.disconnectLog]⟩ ∧
    receiveStep st RecvEvent.readError =
      ⟨{ st with iClientSock := 0 }, StepOutcome.loopContinue, [LogEvent.readFailLog]⟩ := by
  exact ⟨rfl, rfl⟩

/-- C5 counterexample: an accept error makes the Acceptor terminate the
whole process, refuting the claim that it never does. -/
theorem accept_error_exits_process :
    (acceptorAcceptStep [] AcceptResult.acceptError).processExit = true := rfl

/-- C5 amended: an error returned by accept is fatal: whatever the slot
table, the Acceptor logs it and calls exit(EXIT_FAILURE), terminating the
process; no slot-local recovery takes place. -/
theorem accept_error_fatal (stClientGroup : List CLIENT_INFO) :
    acceptorAcceptStep stClientGroup AcceptResult.acceptError =
      ⟨stClientGroup, [], true, false⟩ := rfl

/-- C6 counterexample: installing descriptor 7 into a freed slot whose
Mailbox still holds an unread payload leaves hasData raised, the payload in
place, and the condition variable uninitialized, refuting the fresh-Mailbox
claim at this concrete slot. -/
theorem installClient_keeps_residual_mailbox :
    (installClient staleFreedSlot 7).stSharedData.hasData = true ∧
    (installClient staleFreedSlot 7).stSharedData.chData ≠
      List.replicate BUFFER_SIZE 0 ∧
    (installClient staleFreedSlot 7).stSharedData.condInit = false := by
  refine ⟨rfl, ?_, rfl⟩
  decide

/-- C6 amended: installing an accepted descriptor into a slot stores the
descriptor, initializes the Mailbox mutex, and sets the exit flag to false;
the condition variable is not initialized and the payload and hasData are
not cleared, so a reused slot carries the residual hasData and payload of
its prior occupant. -/
theorem installClient_spec (slot : CLIENT_INFO) (fd : Nat) :
    installClient slot fd =
      { iClientSock := fd
      , bExitFlag := false
      , stSharedData :=
        { chData := slot.stSharedData.chData
        , hasData := slot.stSharedData.hasData
        , mutexInit := true
        , condInit := slot.stSharedData.condInit } } := rfl

/-- C7 counterexample: a two-byte read result containing an interior NUL is
truncated by the strlen-based copies — the sender delivers one byte, not the
two bytes read — refuting the value-independence claim. -/
theorem relayOnce_truncates_at_nul :
    relayOnce zeroSharedData [97, 0] ≠ [97, 0] := by decide

/-- C7 amended: for every positive read result whose bytes are all nonzero
and whose length is below BUFFER_SIZE, the deposited Mailbox message and the
sender's subsequent write carry exactly those bytes; payloads containing a
zero byte are truncated at it by the strlen-based copies. -/
theorem relayOnce_preserves_bytes (sd : SHARED_DATA) (data : List Nat)
    (hp : ∀ b ∈ data, b ≠ 0) (hl : data.length < BUFFER_SIZE) :
    relayOnce sd data = data :=
  drained_deposit sd data hp hl

/-- Witness for C7's amended theorem on the five-byte payload hello. -/
theorem relayOnce_preserves_bytes_witness :
    relayOnce zeroSharedData [104, 101, 108, 108, 111] =
      [104, 101, 108, 108, 111] :=
  relayOnce_preserves_bytes zeroSharedData [104, 101, 108, 108, 111]
    (by decide) (by decide)

/-- C8: createServerSocket returns a socket configured with address/port
reuse, keep-alive enabled with idle 10 s, interval 5 s and probe count 3,
bound to all interfaces (INADDR_ANY) on the given port with the given
backlog, exactly when every setup call succeeds; any setup-step failure
terminates the process (modelled by none) instead of returning a socket. -/
theorem createServerSocket_spec (iPort iMaxClients : Nat)
    (env : ServerSocketEnv) :
    (createServerSocket iPort iMaxClients env = none ↔ envAllOk env = false) ∧
    (envAllOk env = true →
      createServerSocket iPort iMaxClients env = some
        { reuseAddrPort := true
        , keepaliveEnabled := true
        , keepIdle := 10
        , keepInterval := 5
        , keepCount := 3
        , bindAddr := INADDR_ANY
        , bindPort := iPort
        , backlog := iMaxClients }) := by
  obtain ⟨s, r, ka, ki, kv, kc, b, l⟩ := env
  cases s <;> cases r <;> cases ka <;> cases ki <;> cases kv <;> cases kc <;>
    cases b <;> cases l <;> simp [createServerSocket, envAllOk]

/-- Witness for C8 at the server's actual parameters (port 8080, backlog
MAX_CLIENTS) with every setup call succeeding. -/
theorem createServerSocket_spec_witness :
    createServerSocket 8080 MAX_CLIENTS
        ⟨true, true, true, true, true, true, true, true⟩ = some
      { reuseAddrPort := true
      , keepaliveEnabled := true
      , keepIdle := 10
      , keepInterval := 5
      , keepCount := 3
      , bindAddr := INADDR_ANY
      , bindPort := 8080
      , backlog := MAX_CLIENTS } :=
  (createServerSocket_spec 8080 MAX_CLIENTS
    ⟨true, true, true, true, true, true, true, true⟩).2 rfl

/-- C9: a read into the BUFFER_SIZE-byte buffer may legitimately return
iReadSize = BUFFER_SIZE, and for that value the subsequent NUL store at
index iReadSize falls outside the buffer (one past its last cell): the
claimed in-bounds property fails at the boundary. -/
theorem nulTerminateStore_out_of_bounds :
    1 ≤ BUFFER_SIZE ∧ BUFFER_SIZE ≤ BUFFER_SIZE ∧
    nulTerminateStore (List.replicate BUFFER_SIZE 97) = none := by
  refine ⟨by norm_num [BUFFER_SIZE], le_refl _, ?_⟩
  have hlen : (bufferAfterRead (List.replicate BUFFER_SIZE 97)).length =
      BUFFER_SIZE := by
    simp [bufferAfterRead, memcpy]
  simp [nulTerminateStore, listStore, hlen]

/-- Companion fact for C9: for every read result strictly shorter than
BUFFER_SIZE the NUL store is in bounds. -/
theorem nulTerminateStore_isSome_of_lt (data : List Nat)
    (h : data.length < BUFFER_SIZE) :
    (nulTerminateStore data).isSome = true := by
  have hlen : (bufferAfterRead data).length = BUFFER_SIZE := by
    simp [bufferAfterRead, memcpy]
    omega
  simp [nulTerminateStore, listStore, hlen, h]

/-- C10: the shared exit flag is monotone for the worker pair — slot
installation is the only operation storing false; every worker iteration
either leaves the flag unchanged or raises it to true; and once the flag is
true it stays true across any sequence of worker iterations of either
worker. -/
theorem exitFlag_monotone :
    (∀ (slot : CLIENT_INFO) (fd : Nat), (installClient slot fd).bExitFlag = false) ∧
    (∀ (st : CLIENT_INFO) (e : SessionEvent),
      (sessionStep st e).bExitFlag = st.bExitFlag ∨
      (sessionStep st e).bExitFlag = true) ∧
    (∀ (st : CLIENT_INFO) (evs : List SessionEvent),
      st.bExitFlag = true → (List.foldl sessionStep st evs).bExitFlag = true) := by
  refine ⟨fun slot fd => rfl, ?_, ?_⟩
  · intro st e
    cases e with
    | recv ev => cases ev <;> simp [sessionStep, receiveStep]
    | send ev =>
      cases hb : st.bExitFlag <;> cases ev <;> simp [sessionStep, sendStep, hb]
  · intro st evs
    induction evs generalizing st with
    | nil => intro h; simpa using h
    | cons e evs ih =>
      intro h
      exact ih (sessionStep st e) (sessionStep_flag_mono st e h)

/-- Witness for C10: a raised flag survives a sender heartbeat iteration. -/
theorem exitFlag_monotone_witness :
    (List.foldl sessionStep flaggedSlot
      [SessionEvent.send SendEvent.condTimeout]).bExitFlag = true :=
  exitFlag_monotone.2.2 flaggedSlot [SessionEvent.send SendEvent.condTimeout] rfl
